import Mathlib

/-!
# Shallow embedding of `faxto.go` (KaiserWerk/go-faxto)

The repository is a Go client for the fax.to HTTP API.  Each exported method
builds one request URL from a template, performs one HTTP round trip, checks
the status code, and decodes a JSON body.  This file embeds:

* the JSON data model (`Json`) and the behaviour of `encoding/json` decoding
  for the exact response structs declared in `faxto.go`;
* the URL template substitution (`strings.ReplaceAll`) as `goReplaceAll`;
* the `Client` record, `NewClient`, and the response-processing logic of each
  of the eight exported methods, as pure functions over an abstract HTTP
  response (`Response`).  The network round trip itself is abstracted: a
  method receives `Except GoError Response`, where the `.error` case models
  `httpClient.Do` returning a transport error.

Modelling notes, kept faithful to Go's `encoding/json` semantics:
* decoding JSON `null` into a struct or scalar field leaves it unchanged;
* decoding JSON `null` into a slice sets the slice to `nil` (Go docs: "The
  JSON null value unmarshals into an interface, map, pointer, or slice by
  setting that Go value to nil"); a Go slice is therefore modelled as
  `Option (List _)`, with `none` for the nil slice;
* a number decoded into an unsigned integer field must be integral,
  non-negative and in range, otherwise decoding fails;
* unknown object keys are ignored; for the structs in this file every JSON
  tag differs from the others in more than case, and no claim exercises Go's
  case-insensitive fallback match, so key matching is modelled as exact;
* `time.Time` is modelled by its RFC3339 text (`GoTime`); the RFC3339 parse
  check in `time.Time.UnmarshalJSON` is abstracted (any string accepted), and
  `null` is a no-op exactly as in `time.Time.UnmarshalJSON`.
-/

/-- A parsed JSON value: the body of an HTTP response after `json` parsing. -/
inductive Json where
  | null
  | bool (b : Bool)
  | num (q : Rat)
  | str (s : String)
  | arr (elems : List Json)
  | obj (fields : List (String × Json))

/-- The errors a method of `faxto.go` can return, carrying exactly the data
the corresponding Go `error` value carries.  `httpStatus code` is
`fmt.Errorf("expected status < 400, got %d", code)`; `remoteStatus s` is
`fmt.Errorf("expected status 'success', got '%s'", s)`; `decodeFailure` is an
error from `json.Decoder.Decode`; `transportFailure` an error from
`http.Client.Do` or `http.Client.PostForm`; `fileReadFailure` an error from
`ioutil.ReadFile`. -/
inductive GoError where
  | httpStatus (code : Nat)
  | remoteStatus (status : String)
  | decodeFailure
  | transportFailure
  | fileReadFailure
deriving DecidableEq

/-- An HTTP response as the client observes it: the status code, and the
body.  `body = none` models a body that is not syntactically valid JSON
(including an empty body), on which any `Decode` call fails. -/
structure Response where
  statusCode : Nat
  body : Option Json

/-- `time.Time`, modelled by its RFC3339 text. -/
structure GoTime where
  rfc3339 : String
deriving DecidableEq

/-- Zero value of `time.Time` for this model. -/
def GoTime.zero : GoTime := ⟨""⟩

/-- Decoding a JSON value into a `string` field holding `cur`. -/
def decodeStringField (v : Json) (cur : String) : Except GoError String :=
  match v with
  | .str s => .ok s
  | .null => .ok cur
  | _ => .error .decodeFailure

/-- Decoding a JSON value into a `float64` field holding `cur`. -/
def decodeFloatField (v : Json) (cur : Rat) : Except GoError Rat :=
  match v with
  | .num q => .ok q
  | .null => .ok cur
  | _ => .error .decodeFailure

/-- Decoding a JSON value into an unsigned integer field of `bits` bits
holding `cur`: the number must be integral, non-negative and in range. -/
def decodeUIntField (bits : Nat) (v : Json) (cur : Nat) : Except GoError Nat :=
  match v with
  | .num q =>
    if q.den = 1 ∧ 0 ≤ q.num ∧ q.num < (2 : Int) ^ bits then .ok q.num.toNat
    else .error .decodeFailure
  | .null => .ok cur
  | _ => .error .decodeFailure

/-- Decoding a JSON value into a `time.Time` field holding `cur`. -/
def decodeTimeField (v : Json) (cur : GoTime) : Except GoError GoTime :=
  match v with
  | .str s => .ok ⟨s⟩
  | .null => .ok cur
  | _ => .error .decodeFailure

/-- Folds the key/value pairs of a JSON object into a struct value `a`,
applying `set` for each pair in order, as `encoding/json` does. -/
def decodeObjFields {α : Type} (set : α → String → Json → Except GoError α) :
    α → List (String × Json) → Except GoError α
  | a, [] => .ok a
  | a, (k, v) :: rest =>
    match set a k v with
    | .error e => .error e
    | .ok a2 => decodeObjFields set a2 rest

/-- Decodes each element of a JSON array with `decElem`, in order. -/
def decodeElems {α : Type} (decElem : Json → Except GoError α) :
    List Json → Except GoError (List α)
  | [] => .ok []
  | v :: vs =>
    match decElem v with
    | .error e => .error e
    | .ok a =>
      match decodeElems decElem vs with
      | .error e => .error e
      | .ok rest => .ok (a :: rest)

/-- Decoding a JSON value into a Go slice currently holding `cur`
(`none` = nil slice): an array replaces the slice, `null` sets it to nil,
anything else is a type error. -/
def decodeSliceField {α : Type} (decElem : Json → Except GoError α)
    (v : Json) (_cur : Option (List α)) : Except GoError (Option (List α)) :=
  match v with
  | .arr vs =>
    match decodeElems decElem vs with
    | .error e => .error e
    | .ok l => .ok (some l)
  | .null => .ok none
  | _ => .error .decodeFailure

/-- `balanceResponse` from `faxto.go` (note the `sunbscription_credit_allowance`
JSON tag, kept verbatim from the source). -/
structure balanceResponse where
  Status : String
  Balance : Rat
  SubscriptionCreditAllowance : Rat
deriving DecidableEq

/-- Zero value of `balanceResponse`. -/
def balanceResponse.zero : balanceResponse := ⟨"", 0, 0⟩

/-- One `encoding/json` field assignment for `balanceResponse`. -/
def balanceSetField (b : balanceResponse) (k : String) (v : Json) :
    Except GoError balanceResponse :=
  if k = "status" then
    (decodeStringField v b.Status).map fun s => { b with Status := s }
  else if k = "balance" then
    (decodeFloatField v b.Balance).map fun x => { b with Balance := x }
  else if k = "sunbscription_credit_allowance" then
    (decodeFloatField v b.SubscriptionCreditAllowance).map
      fun x => { b with SubscriptionCreditAllowance := x }
  else .ok b

/-- Decoding a JSON value into a `balanceResponse`. -/
def decodeBalanceJson : Json → Except GoError balanceResponse
  | .obj fs => decodeObjFields balanceSetField balanceResponse.zero fs
  | .null => .ok balanceResponse.zero
  | _ => .error .decodeFailure

/-- `faxCostResponse` from `faxto.go`. -/
structure faxCostResponse where
  Status : String
  Cost : Rat
deriving DecidableEq

/-- Zero value of `faxCostResponse`. -/
def faxCostResponse.zero : faxCostResponse := ⟨"", 0⟩

/-- One `encoding/json` field assignment for `faxCostResponse`. -/
def faxCostSetField (b : faxCostResponse) (k : String) (v : Json) :
    Except GoError faxCostResponse :=
  if k = "status" then
    (decodeStringField v b.Status).map fun s => { b with Status := s }
  else if k = "cost" then
    (decodeFloatField v b.Cost).map fun x => { b with Cost := x }
  else .ok b

/-- Decoding a JSON value into a `faxCostResponse`. -/
def decodeFaxCostJson : Json → Except GoError faxCostResponse
  | .obj fs => decodeObjFields faxCostSetField faxCostResponse.zero fs
  | .null => .ok faxCostResponse.zero
  | _ => .error .decodeFailure

/-- `faxStatusResponse` from `faxto.go`. -/
structure faxStatusResponse where
  Status : String
  Message : String
  Balance : Rat
deriving DecidableEq

/-- Zero value of `faxStatusResponse`. -/
def faxStatusResponse.zero : faxStatusResponse := ⟨"", "", 0⟩

/-- One `encoding/json` field assignment for `faxStatusResponse`. -/
def faxStatusSetField (b : faxStatusResponse) (k : String) (v : Json) :
    Except GoError faxStatusResponse :=
  if k = "status" then
    (decodeStringField v b.Status).map fun s => { b with Status := s }
  else if k = "message" then
    (decodeStringField v b.Message).map fun s => { b with Message := s }
  else if k = "user_cash_balance" then
    (decodeFloatField v b.Balance).map fun x => { b with Balance := x }
  else .ok b

/-- Decoding a JSON value into a `faxStatusResponse`. -/
def decodeFaxStatusJson : Json → Except GoError faxStatusResponse
  | .obj fs => decodeObjFields faxStatusSetField faxStatusResponse.zero fs
  | .null => .ok faxStatusResponse.zero
  | _ => .error .decodeFailure

/-- The anonymous `Created` struct nested in `FaxHistoryEntry`. -/
structure CreatedInfo where
  Date : GoTime
  DateTimeZone : Nat
  Timezone : String
deriving DecidableEq

/-- Zero value of the nested `Created` struct. -/
def CreatedInfo.zero : CreatedInfo := ⟨GoTime.zero, 0, ""⟩

/-- One `encoding/json` field assignment for the nested `Created` struct
(`DateTimeZone` is a `uint8`). -/
def createdSetField (b : CreatedInfo) (k : String) (v : Json) :
    Except GoError CreatedInfo :=
  if k = "date" then
    (decodeTimeField v b.Date).map fun t => { b with Date := t }
  else if k = "datetime_zone" then
    (decodeUIntField 8 v b.DateTimeZone).map fun n => { b with DateTimeZone := n }
  else if k = "timezone" then
    (decodeStringField v b.Timezone).map fun s => { b with Timezone := s }
  else .ok b

/-- `FaxHistoryEntry` from `faxto.go` (`Id`, `DocumentId` are `uint64`). -/
structure FaxHistoryEntry where
  Id : Nat
  Created : CreatedInfo
  DocumentId : Nat
  Document : String
  Recipient : String
  Status : String
deriving DecidableEq

/-- Zero value of `FaxHistoryEntry`. -/
def FaxHistoryEntry.zero : FaxHistoryEntry := ⟨0, CreatedInfo.zero, 0, "", "", ""⟩

/-- One `encoding/json` field assignment for `FaxHistoryEntry`. -/
def entrySetField (b : FaxHistoryEntry) (k : String) (v : Json) :
    Except GoError FaxHistoryEntry :=
  if k = "id" then
    (decodeUIntField 64 v b.Id).map fun n => { b with Id := n }
  else if k = "created" then
    match v with
    | .obj fs => (decodeObjFields createdSetField b.Created fs).map
        fun cr => { b with Created := cr }
    | .null => .ok b
    | _ => .error .decodeFailure
  else if k = "document_id" then
    (decodeUIntField 64 v b.DocumentId).map fun n => { b with DocumentId := n }
  else if k = "document" then
    (decodeStringField v b.Document).map fun s => { b with Document := s }
  else if k = "recipient" then
    (decodeStringField v b.Recipient).map fun s => { b with Recipient := s }
  else if k = "status" then
    (decodeStringField v b.Status).map fun s => { b with Status := s }
  else .ok b

/-- Decoding one JSON array element into a `FaxHistoryEntry`. -/
def decodeEntryJson : Json → Except GoError FaxHistoryEntry
  | .obj fs => decodeObjFields entrySetField FaxHistoryEntry.zero fs
  | .null => .ok FaxHistoryEntry.zero
  | _ => .error .decodeFailure

/-- `faxHistoryResponse` from `faxto.go`; `History` is a Go slice
(`none` = nil). -/
structure faxHistoryResponse where
  Status : String
  History : Option (List FaxHistoryEntry)
deriving DecidableEq

/-- Zero value of `faxHistoryResponse` (`History` starts as the nil slice). -/
def faxHistoryResponse.zero : faxHistoryResponse := ⟨"", none⟩

/-- One `encoding/json` field assignment for `faxHistoryResponse`. -/
def historySetField (b : faxHistoryResponse) (k : String) (v : Json) :
    Except GoError faxHistoryResponse :=
  if k = "status" then
    (decodeStringField v b.Status).map fun s => { b with Status := s }
  else if k = "history" then
    (decodeSliceField decodeEntryJson v b.History).map
      fun h => { b with History := h }
  else .ok b

/-- Decoding a JSON value into a `faxHistoryResponse`. -/
def decodeFaxHistoryJson : Json → Except GoError faxHistoryResponse
  | .obj fs => decodeObjFields historySetField faxHistoryResponse.zero fs
  | .null => .ok faxHistoryResponse.zero
  | _ => .error .decodeFailure

/-- `fileUploadResponse` from `faxto.go` (`DocumentId`, `TotalPages` are
`uint64`). -/
structure fileUploadResponse where
  Status : String
  DocumentId : Nat
  TotalPages : Nat
deriving DecidableEq

/-- Zero value of `fileUploadResponse`. -/
def fileUploadResponse.zero : fileUploadResponse := ⟨"", 0, 0⟩

/-- One `encoding/json` field assignment for `fileUploadResponse`. -/
def uploadSetField (b : fileUploadResponse) (k : String) (v : Json) :
    Except GoError fileUploadResponse :=
  if k = "status" then
    (decodeStringField v b.Status).map fun s => { b with Status := s }
  else if k = "document_id" then
    (decodeUIntField 64 v b.DocumentId).map fun n => { b with DocumentId := n }
  else if k = "total_pages" then
    (decodeUIntField 64 v b.TotalPages).map fun n => { b with TotalPages := n }
  else .ok b

/-- Decoding a JSON value into a `fileUploadResponse`. -/
def decodeFileUploadJson : Json → Except GoError fileUploadResponse
  | .obj fs => decodeObjFields uploadSetField fileUploadResponse.zero fs
  | .null => .ok fileUploadResponse.zero
  | _ => .error .decodeFailure

/-- `File` from `faxto.go` (`Id`, `Size` are `uint64`, `Pages` is `uint`,
`Uploaded` is a `time.Time`). -/
structure File where
  Id : Nat
  Filename : String
  Pages : Nat
  Size : Nat
  Uploaded : GoTime
deriving DecidableEq

/-- Zero value of `File`. -/
def File.zero : File := ⟨0, "", 0, 0, GoTime.zero⟩

/-- One `encoding/json` field assignment for `File` (`uint` is 64-bit). -/
def fileSetField (b : File) (k : String) (v : Json) : Except GoError File :=
  if k = "id" then
    (decodeUIntField 64 v b.Id).map fun n => { b with Id := n }
  else if k = "filename" then
    (decodeStringField v b.Filename).map fun s => { b with Filename := s }
  else if k = "pages" then
    (decodeUIntField 64 v b.Pages).map fun n => { b with Pages := n }
  else if k = "size" then
    (decodeUIntField 64 v b.Size).map fun n => { b with Size := n }
  else if k = "uploaded" then
    (decodeTimeField v b.Uploaded).map fun t => { b with Uploaded := t }
  else .ok b

/-- Decoding one JSON array element into a `File`. -/
def decodeFileJson : Json → Except GoError File
  | .obj fs => decodeObjFields fileSetField File.zero fs
  | .null => .ok File.zero
  | _ => .error .decodeFailure

/-- Decoding an optional parsed body with `dec`; `none` (invalid JSON text)
always fails, as `json.Decoder.Decode` does. -/
def decodeBody {α : Type} (dec : Json → Except GoError α) :
    Option Json → Except GoError α
  | none => .error .decodeFailure
  | some j => dec j

/-- One pass of Go's `strings.Replace(s, old, new, -1)` over the subject list:
scan left to right; when `skip` is positive the position is inside an already
matched occurrence and is consumed silently; at `skip = 0`, if `old` matches
here, emit `new` and skip the rest of the match, else emit the character.
(Go treats an empty `old` specially, inserting `new` at every position; both
uses in `faxto.go` pass a non-empty `old`, for which this is exact.) -/
def replaceGo (old new : List Char) : List Char → Nat → List Char
  | [], _ => []
  | _ :: rest, skip + 1 => replaceGo old new rest skip
  | c :: rest, 0 =>
    if old.isPrefixOf (c :: rest) ∧ old ≠ [] then
      new ++ replaceGo old new rest (old.length - 1)
    else
      c :: replaceGo old new rest 0

/-- `strings.ReplaceAll s old new` on the model. -/
def goReplaceAll (s old new : String) : String :=
  ⟨replaceGo old.data new.data s.data 0⟩

/-- Does `pat` occur as a contiguous substring of the subject list? -/
def containsSub (pat : List Char) : List Char → Bool
  | [] => pat.isEmpty
  | c :: t => pat.isPrefixOf (c :: t) || containsSub pat t

/-- Does `s` contain `pat` as a contiguous substring? -/
def strContainsSub (s pat : String) : Bool := containsSub pat.data s.data

/-- The `rawBaseUrl` constant of `faxto.go`. -/
def rawBaseUrl : String := "https://fax.to/api/v2$action$?api_key=$key$"

/-- The `http.Client` configuration installed by `NewClient`; only the
timeout is configured in the source. -/
structure HttpClientConfig where
  timeoutSeconds : Nat
deriving DecidableEq

/-- The `Client` struct of `faxto.go`. -/
structure Client where
  baseUrl : String
  httpClient : HttpClientConfig
deriving DecidableEq

/-- `NewClient` from `faxto.go`: substitutes the API key into the `$key$`
placeholder of `rawBaseUrl` and installs a transport with a 10 second
timeout. -/
def NewClient (apiKey : String) : Client :=
  { baseUrl := goReplaceAll rawBaseUrl "$key$" apiKey
    httpClient := { timeoutSeconds := 10 } }

/-- The URL `SendFax` posts to. -/
def Client.SendFax_url (c : Client) : String :=
  goReplaceAll c.baseUrl "$action$" "/fax"

/-- The URL `GetBalance` requests. -/
def Client.GetBalance_url (c : Client) : String :=
  goReplaceAll c.baseUrl "$action$" "/balance"

/-- The URL `GetFaxCost` requests (`docId` is formatted with `%d` and
`&fax_number=` plus the number is appended after the substitution). -/
def Client.GetFaxCost_url (c : Client) (number : String) (docId : Nat) : String :=
  goReplaceAll c.baseUrl "$action$" ("/fax/" ++ toString docId ++ "/costs")
    ++ "&fax_number=" ++ number

/-- The URL `GetFaxStatus` requests (`faxJobId` is a Go `int`). -/
def Client.GetFaxStatus_url (c : Client) (faxJobId : Int) : String :=
  goReplaceAll c.baseUrl "$action$" ("/fax/" ++ toString faxJobId ++ "/status")

/-- The URL `GetFaxHistory` requests. -/
def Client.GetFaxHistory_url (c : Client) : String :=
  goReplaceAll c.baseUrl "$action$" "/fax-history"

/-- The URL `UploadFile` posts to. -/
def Client.UploadFile_url (c : Client) : String :=
  goReplaceAll c.baseUrl "$action$" "/files"

/-- The URL `GetFiles` requests. -/
def Client.GetFiles_url (c : Client) : String :=
  goReplaceAll c.baseUrl "$action$" "/files"

/-- The URL `DeleteFile` requests. -/
def Client.DeleteFile_url (c : Client) (fileId : Nat) : String :=
  goReplaceAll c.baseUrl "$action$" ("/files/" ++ toString fileId)

/-- An outbound HTTP request: the method, the URL, and the raw body bytes. -/
structure Request where
  method : String
  url : String
  rawBody : List Nat
deriving DecidableEq

/-- The request `UploadFile` builds once `ioutil.ReadFile` has returned
`content`: a POST whose entire body is the raw file bytes, with no
inspection or validation of `content`. -/
def Client.UploadFile_request (c : Client) (content : List Nat) : Request :=
  { method := "POST", url := c.UploadFile_url, rawBody := content }

/-- `(*Client).SendFax` from `faxto.go`, applied to the outcome `r` of
`httpClient.PostForm` (the method's `number` and `fileId` arguments only
shape the form body, never the handling of the response, whose body is
neither read nor decoded). -/
def Client.SendFax (_c : Client) (_number : String) (_fileId : Nat)
    (r : Except GoError Response) : Except GoError Unit :=
  match r with
  | .error e => .error e
  | .ok resp =>
    if resp.statusCode ≥ 400 then .error (.httpStatus resp.statusCode)
    else .ok ()

/-- `(*Client).GetBalance` from `faxto.go`, applied to the outcome `r` of
`httpClient.Do`. -/
def Client.GetBalance (_c : Client) (r : Except GoError Response) :
    Except GoError Rat :=
  match r with
  | .error e => .error e
  | .ok resp =>
    if resp.statusCode ≥ 400 then .error (.httpStatus resp.statusCode)
    else
      match decodeBody decodeBalanceJson resp.body with
      | .error e => .error e
      | .ok b =>
        if b.Status ≠ "success" then .error (.remoteStatus b.Status)
        else .ok b.Balance

/-- `(*Client).GetFaxCost` from `faxto.go` (no success-field check). -/
def Client.GetFaxCost (_c : Client) (_number : String) (_docId : Nat)
    (r : Except GoError Response) : Except GoError Rat :=
  match r with
  | .error e => .error e
  | .ok resp =>
    if resp.statusCode ≥ 400 then .error (.httpStatus resp.statusCode)
    else
      match decodeBody decodeFaxCostJson resp.body with
      | .error e => .error e
      | .ok cost => .ok cost.Cost

/-- `(*Client).GetFaxStatus` from `faxto.go` (no success-field check; the
envelope's `status` string is the result). -/
def Client.GetFaxStatus (_c : Client) (_faxJobId : Int)
    (r : Except GoError Response) : Except GoError String :=
  match r with
  | .error e => .error e
  | .ok resp =>
    if resp.statusCode ≥ 400 then .error (.httpStatus resp.statusCode)
    else
      match decodeBody decodeFaxStatusJson resp.body with
      | .error e => .error e
      | .ok fs => .ok fs.Status

/-- `(*Client).GetFaxHistory` from `faxto.go`. -/
def Client.GetFaxHistory (_c : Client) (r : Except GoError Response) :
    Except GoError (Option (List FaxHistoryEntry)) :=
  match r with
  | .error e => .error e
  | .ok resp =>
    if resp.statusCode ≥ 400 then .error (.httpStatus resp.statusCode)
    else
      match decodeBody decodeFaxHistoryJson resp.body with
      | .error e => .error e
      | .ok fh =>
        if fh.Status ≠ "success" then .error (.remoteStatus fh.Status)
        else .ok fh.History

/-- `(*Client).UploadFile` from `faxto.go`, applied to the outcome of
`ioutil.ReadFile` (`content`, `none` = read error) and, when a request went
out, the outcome `r` of `httpClient.Do`. -/
def Client.UploadFile (_c : Client) (content : Option (List Nat))
    (r : Except GoError Response) : Except GoError Nat :=
  match content with
  | none => .error .fileReadFailure
  | some _ =>
    match r with
    | .error e => .error e
    | .ok resp =>
      if resp.statusCode ≥ 400 then .error (.httpStatus resp.statusCode)
      else
        match decodeBody decodeFileUploadJson resp.body with
        | .error e => .error e
        | .ok fu =>
          if fu.Status ≠ "success" then .error (.remoteStatus fu.Status)
          else .ok fu.DocumentId

/-- `(*Client).GetFiles` from `faxto.go`: the local variable starts as
`make([]File, 0)` (the slice `some []`), and the body is decoded into it. -/
def Client.GetFiles (_c : Client) (r : Except GoError Response) :
    Except GoError (Option (List File)) :=
  match r with
  | .error e => .error e
  | .ok resp =>
    if resp.statusCode ≥ 400 then .error (.httpStatus resp.statusCode)
    else
      match decodeBody (fun j => decodeSliceField decodeFileJson j (some [])) resp.body with
      | .error e => .error e
      | .ok files => .ok files

/-- `(*Client).DeleteFile` from `faxto.go` (the response body is neither
read nor decoded). -/
def Client.DeleteFile (_c : Client) (_fileId : Nat)
    (r : Except GoError Response) : Except GoError Unit :=
  match r with
  | .error e => .error e
  | .ok resp =>
    if resp.statusCode ≥ 400 then .error (.httpStatus resp.statusCode)
    else .ok ()

/-- `SendFax` as a state transformer on the receiver: the Go method has a
pointer receiver but contains no assignment to any field of `*c`, so the
receiver after the call is the receiver before it. -/
def Client.SendFax_call (c : Client) (number : String) (fileId : Nat)
    (r : Except GoError Response) : Except GoError Unit × Client :=
  (c.SendFax number fileId r, c)

/-- `GetBalance` as a state transformer on the receiver (no field of the
receiver is assigned in the method body). -/
def Client.GetBalance_call (c : Client) (r : Except GoError Response) :
    Except GoError Rat × Client :=
  (c.GetBalance r, c)

/-- `GetFaxCost` as a state transformer on the receiver. -/
def Client.GetFaxCost_call (c : Client) (number : String) (docId : Nat)
    (r : Except GoError Response) : Except GoError Rat × Client :=
  (c.GetFaxCost number docId r, c)

/-- `GetFaxStatus` as a state transformer on the receiver. -/
def Client.GetFaxStatus_call (c : Client) (faxJobId : Int)
    (r : Except GoError Response) : Except GoError String × Client :=
  (c.GetFaxStatus faxJobId r, c)

/-- `GetFaxHistory` as a state transformer on the receiver. -/
def Client.GetFaxHistory_call (c : Client) (r : Except GoError Response) :
    Except GoError (Option (List FaxHistoryEntry)) × Client :=
  (c.GetFaxHistory r, c)

/-- `UploadFile` as a state transformer on the receiver. -/
def Client.UploadFile_call (c : Client) (content : Option (List Nat))
    (r : Except GoError Response) : Except GoError Nat × Client :=
  (c.UploadFile content r, c)

/-- `GetFiles` as a state transformer on the receiver. -/
def Client.GetFiles_call (c : Client) (r : Except GoError Response) :
    Except GoError (Option (List File)) × Client :=
  (c.GetFiles r, c)

/-- `DeleteFile` as a state transformer on the receiver. -/
def Client.DeleteFile_call (c : Client) (fileId : Nat)
    (r : Except GoError Response) : Except GoError Unit × Client :=
  (c.DeleteFile fileId r, c)

/-- The JSON object the server would send for one `FaxHistoryEntry`. -/
def entryToJson (e : FaxHistoryEntry) : Json :=
  .obj [("id", .num e.Id),
        ("created", .obj [("date", .str e.Created.Date.rfc3339),
                          ("datetime_zone", .num e.Created.DateTimeZone),
                          ("timezone", .str e.Created.Timezone)]),
        ("document_id", .num e.DocumentId),
        ("document", .str e.Document),
        ("recipient", .str e.Recipient),
        ("status", .str e.Status)]

/-- The JSON object the server would send for one `File`. -/
def fileToJson (f : File) : Json :=
  .obj [("id", .num f.Id),
        ("filename", .str f.Filename),
        ("pages", .num f.Pages),
        ("size", .num f.Size),
        ("uploaded", .str f.Uploaded.rfc3339)]

/-- A `FaxHistoryEntry` whose integer fields are in range of their Go types
(`uint64`, `uint8`): exactly the values the remote can actually serialize. -/
def FaxHistoryEntry.wf (e : FaxHistoryEntry) : Prop :=
  e.Id < 2 ^ 64 ∧ e.DocumentId < 2 ^ 64 ∧ e.Created.DateTimeZone < 2 ^ 8

instance (e : FaxHistoryEntry) : Decidable e.wf := by
  unfold FaxHistoryEntry.wf; infer_instance

/-- A `File` whose integer fields are in range of their Go types. -/
def File.wf (f : File) : Prop :=
  f.Id < 2 ^ 64 ∧ f.Pages < 2 ^ 64 ∧ f.Size < 2 ^ 64

instance (f : File) : Decidable f.wf := by
  unfold File.wf; infer_instance

/-- Bool check: scanning region `A` (followed by `t`) never starts a match of
`pat`; used to push `replaceGo` across a concrete non-matching region. -/
def noMatchScan (pat : List Char) : List Char → List Char → Bool
  | [], _ => true
  | c :: r, t => !(pat.isPrefixOf (c :: (r ++ t))) && noMatchScan pat r t

theorem isPrefixOf_self_append (l t : List Char) : l.isPrefixOf (l ++ t) = true := by
  induction l with
  | nil => simp [List.isPrefixOf]
  | cons c r ih => simp [List.isPrefixOf, ih]

theorem replaceGo_skip_consume (old new : List Char) (l t : List Char) :
    replaceGo old new (l ++ t) l.length = replaceGo old new t 0 := by
  induction l with
  | nil => rfl
  | cons c r ih =>
    simp only [List.cons_append, List.length_cons]
    rw [replaceGo]
    exact ih

theorem replaceGo_match (old new t : List Char) (h : old ≠ []) :
    replaceGo old new (old ++ t) 0 = new ++ replaceGo old new t 0 := by
  match old, h with
  | o :: os, _ =>
    show replaceGo (o :: os) new (o :: os ++ t) 0 = _
    rw [List.cons_append, replaceGo, if_pos]
    · rw [show (o :: os).length - 1 = os.length by simp]
      rw [replaceGo_skip_consume]
    · constructor
      · have := isPrefixOf_self_append (o :: os) t
        simp only [List.cons_append] at this
        exact this
      · simp

theorem replaceGo_scan_noMatch (pat new : List Char) (A t : List Char)
    (h : noMatchScan pat A t = true) :
    replaceGo pat new (A ++ t) 0 = A ++ replaceGo pat new t 0 := by
  induction A with
  | nil => rfl
  | cons c r ih =>
    rw [noMatchScan] at h
    simp only [Bool.and_eq_true, Bool.not_eq_eq_eq_not, Bool.not_true] at h
    rw [List.cons_append, replaceGo, if_neg]
    · rw [ih h.2, List.cons_append]
    · intro hc
      rw [h.1] at hc
      exact Bool.noConfusion hc.1

theorem replaceGo_scan_nodollar (ps new : List Char) (A t : List Char)
    (hA : A.all (fun c => c != '$') = true) :
    replaceGo ('$' :: ps) new (A ++ t) 0 = A ++ replaceGo ('$' :: ps) new t 0 := by
  induction A with
  | nil => rfl
  | cons c r ih =>
    rw [List.all_cons, Bool.and_eq_true] at hA
    rw [List.cons_append, replaceGo, if_neg]
    · rw [ih hA.2, List.cons_append]
    · intro hc
      have h1 := hc.1
      rw [List.isPrefixOf] at h1
      simp only [Bool.and_eq_true, beq_iff_eq] at h1
      rw [h1.1] at hA
      exact absurd hA.1 (by simp)

theorem replaceGo_of_not_containsSub (pat new k : List Char)
    (h : containsSub pat k = false) :
    replaceGo pat new k 0 = k := by
  induction k with
  | nil => rfl
  | cons c r ih =>
    rw [containsSub, Bool.or_eq_false_iff] at h
    rw [replaceGo, if_neg]
    · rw [ih h.2]
    · intro hc
      rw [h.1] at hc
      exact Bool.noConfusion hc.1

theorem containsSub_head (pat s : List Char) : containsSub pat (pat ++ s) = true := by
  cases hps : pat ++ s with
  | nil =>
    have hp : pat = [] := (List.append_eq_nil.mp hps).1
    simp [containsSub, hp]
  | cons c t =>
    rw [containsSub, ← hps, isPrefixOf_self_append, Bool.true_or]

theorem containsSub_cons_of (pat : List Char) (c : Char) (t : List Char)
    (h : containsSub pat t = true) : containsSub pat (c :: t) = true := by
  rw [containsSub, h, Bool.or_true]

theorem containsSub_append_of (pat p rest : List Char)
    (h : containsSub pat rest = true) : containsSub pat (p ++ rest) = true := by
  induction p with
  | nil => exact h
  | cons c r ih => exact containsSub_cons_of _ _ _ ih

theorem baseUrl_data_eq (key : String) :
    (NewClient key).baseUrl.data =
      "https://fax.to/api/v2$action$?api_key=".data ++ key.data := by
  show replaceGo "$key$".data key.data rawBaseUrl.data 0 = _
  rw [show rawBaseUrl.data =
      "https://fax.to/api/v2$action$?api_key=".data ++ "$key$".data from rfl]
  rw [replaceGo_scan_noMatch _ _ _ _ (by decide)]
  rw [show replaceGo "$key$".data key.data "$key$".data 0
        = replaceGo "$key$".data key.data ("$key$".data ++ []) 0 by simp]
  rw [replaceGo_match _ _ _ (by decide)]
  show _ ++ (key.data ++ []) = _
  simp

theorem actionUrl_eq (key act : String)
    (hk : containsSub "$action$".data key.data = false) :
    goReplaceAll (NewClient key).baseUrl "$action$" act =
      "https://fax.to/api/v2" ++ act ++ "?api_key=" ++ key := by
  apply String.ext
  show replaceGo "$action$".data act.data (NewClient key).baseUrl.data 0 = _
  rw [baseUrl_data_eq]
  rw [show "https://fax.to/api/v2$action$?api_key=".data ++ key.data =
      "https://fax.to/api/v2".data ++
        ("$action$".data ++ ("?api_key=".data ++ key.data)) by simp]
  rw [show ("$action$".data : List Char) = '$' :: "action$".data from rfl]
  rw [replaceGo_scan_nodollar _ _ _ _ (by decide)]
  rw [show ('$' :: "action$".data : List Char) = "$action$".data from rfl]
  rw [replaceGo_match _ _ _ (by decide)]
  rw [show ("$action$".data : List Char) = '$' :: "action$".data from rfl]
  rw [replaceGo_scan_nodollar _ _ _ _ (by decide)]
  rw [show ('$' :: "action$".data : List Char) = "$action$".data from rfl]
  rw [replaceGo_of_not_containsSub _ _ _ hk]
  simp [String.data_append]

theorem decodeObjFields_step {α : Type} (set : α → String → Json → Except GoError α)
    (a a2 : α) (k : String) (v : Json) (rest : List (String × Json))
    (h : set a k v = .ok a2) :
    decodeObjFields set a ((k, v) :: rest) = decodeObjFields set a2 rest := by
  rw [decodeObjFields, h]

theorem decodeUIntField_natCast (bits n cur : Nat) (h : n < 2 ^ bits) :
    decodeUIntField bits (.num (n : Rat)) cur = .ok n := by
  rw [decodeUIntField, if_pos]
  · simp
  · refine ⟨by simp, by simp, ?_⟩
    rw [Rat.num_natCast]
    exact_mod_cast h

theorem decodeBalanceJson_envelope (s : String) (q q2 : Rat) :
    decodeBalanceJson (.obj [("status", .str s), ("balance", .num q),
      ("sunbscription_credit_allowance", .num q2)]) = .ok ⟨s, q, q2⟩ := by
  rw [decodeBalanceJson]
  rw [decodeObjFields_step _ _ _ _ _ _
    (by rw [balanceSetField, if_pos rfl]; rfl)]
  rw [decodeObjFields_step _ _ _ _ _ _
    (by rw [balanceSetField, if_neg (by decide), if_pos rfl]; rfl)]
  rw [decodeObjFields_step _ _ _ _ _ _
    (by rw [balanceSetField, if_neg (by decide), if_neg (by decide), if_pos rfl]; rfl)]
  rfl

theorem decodeFaxCostJson_envelope (s : String) (q : Rat) :
    decodeFaxCostJson (.obj [("status", .str s), ("cost", .num q)]) = .ok ⟨s, q⟩ := by
  rw [decodeFaxCostJson]
  rw [decodeObjFields_step _ _ _ _ _ _
    (by rw [faxCostSetField, if_pos rfl]; rfl)]
  rw [decodeObjFields_step _ _ _ _ _ _
    (by rw [faxCostSetField, if_neg (by decide), if_pos rfl]; rfl)]
  rfl

theorem decodeFaxStatusJson_envelope (s m : String) (q : Rat) :
    decodeFaxStatusJson (.obj [("status", .str s), ("message", .str m),
      ("user_cash_balance", .num q)]) = .ok ⟨s, m, q⟩ := by
  rw [decodeFaxStatusJson]
  rw [decodeObjFields_step _ _ _ _ _ _
    (by rw [faxStatusSetField, if_pos rfl]; rfl)]
  rw [decodeObjFields_step _ _ _ _ _ _
    (by rw [faxStatusSetField, if_neg (by decide), if_pos rfl]; rfl)]
  rw [decodeObjFields_step _ _ _ _ _ _
    (by rw [faxStatusSetField, if_neg (by decide), if_neg (by decide), if_pos rfl]; rfl)]
  rfl

theorem decodeFileUploadJson_envelope (s : String) (d p : Nat)
    (hd : d < 2 ^ 64) (hp : p < 2 ^ 64) :
    decodeFileUploadJson (.obj [("status", .str s), ("document_id", .num d),
      ("total_pages", .num p)]) = .ok ⟨s, d, p⟩ := by
  rw [decodeFileUploadJson]
  rw [decodeObjFields_step _ _ _ _ _ _
    (by rw [uploadSetField, if_pos rfl]; rfl)]
  rw [decodeObjFields_step _ _ _ _ _ _
    (by rw [uploadSetField, if_neg (by decide), if_pos rfl,
          decodeUIntField_natCast _ _ _ hd]; rfl)]
  rw [decodeObjFields_step _ _ _ _ _ _
    (by rw [uploadSetField, if_neg (by decide), if_neg (by decide), if_pos rfl,
          decodeUIntField_natCast _ _ _ hp]; rfl)]
  rfl

theorem decodeCreated_fields (cur : CreatedInfo) (d : String) (z : Nat)
    (tz : String) (hz : z < 2 ^ 8) :
    decodeObjFields createdSetField cur
      [("date", .str d), ("datetime_zone", .num z), ("timezone", .str tz)] =
      .ok ⟨⟨d⟩, z, tz⟩ := by
  rw [decodeObjFields_step _ _ _ _ _ _
    (by rw [createdSetField, if_pos rfl]; rfl)]
  rw [decodeObjFields_step _ _ _ _ _ _
    (by rw [createdSetField, if_neg (by decide), if_pos rfl,
          decodeUIntField_natCast _ _ _ hz]; rfl)]
  rw [decodeObjFields_step _ _ _ _ _ _
    (by rw [createdSetField, if_neg (by decide), if_neg (by decide), if_pos rfl]; rfl)]
  rfl

theorem entrySetField_created (b : FaxHistoryEntry) (fs : List (String × Json))
    (cr : CreatedInfo) (h : decodeObjFields createdSetField b.Created fs = .ok cr) :
    entrySetField b "created" (.obj fs) = .ok { b with Created := cr } := by
  rw [entrySetField, if_neg (by decide), if_pos rfl]
  show (decodeObjFields createdSetField b.Created fs).map _ = _
  rw [h]
  rfl

theorem decodeEntryJson_roundtrip (e : FaxHistoryEntry) (h : e.wf) :
    decodeEntryJson (entryToJson e) = .ok e := by
  obtain ⟨h1, h2, h3⟩ := h
  rw [entryToJson, decodeEntryJson]
  rw [decodeObjFields_step _ _ _ _ _ _
    (by rw [entrySetField, if_pos rfl, decodeUIntField_natCast _ _ _ h1]; rfl; all_goals simp)]
  rw [decodeObjFields_step _ _ _ _ _ _
    (entrySetField_created _ _ _ (decodeCreated_fields _ _ _ _ h3))]
  rw [decodeObjFields_step _ _ _ _ _ _
    (by rw [entrySetField, if_neg (by decide), if_neg (by decide), if_pos rfl,
          decodeUIntField_natCast _ _ _ h2]; rfl; all_goals simp)]
  rw [decodeObjFields_step _ _ _ _ _ _
    (by rw [entrySetField, if_neg (by decide), if_neg (by decide),
          if_neg (by decide), if_pos rfl]; rfl; all_goals simp)]
  rw [decodeObjFields_step _ _ _ _ _ _
    (by rw [entrySetField, if_neg (by decide), if_neg (by decide),
          if_neg (by decide), if_neg (by decide), if_pos rfl]; rfl; all_goals simp)]
  rw [decodeObjFields_step _ _ _ _ _ _
    (by rw [entrySetField, if_neg (by decide), if_neg (by decide),
          if_neg (by decide), if_neg (by decide), if_neg (by decide),
          if_pos rfl]; rfl; all_goals simp)]
  rfl

theorem decodeFileJson_roundtrip (f : File) (h : f.wf) :
    decodeFileJson (fileToJson f) = .ok f := by
  obtain ⟨h1, h2, h3⟩ := h
  rw [fileToJson, decodeFileJson]
  rw [decodeObjFields_step _ _ _ _ _ _
    (by rw [fileSetField, if_pos rfl, decodeUIntField_natCast _ _ _ h1]; rfl)]
  rw [decodeObjFields_step _ _ _ _ _ _
    (by rw [fileSetField, if_neg (by decide), if_pos rfl]; rfl)]
  rw [decodeObjFields_step _ _ _ _ _ _
    (by rw [fileSetField, if_neg (by decide), if_neg (by decide), if_pos rfl,
          decodeUIntField_natCast _ _ _ h2]; rfl)]
  rw [decodeObjFields_step _ _ _ _ _ _
    (by rw [fileSetField, if_neg (by decide), if_neg (by decide),
          if_neg (by decide), if_pos rfl, decodeUIntField_natCast _ _ _ h3]; rfl)]
  rw [decodeObjFields_step _ _ _ _ _ _
    (by rw [fileSetField, if_neg (by decide), if_neg (by decide),
          if_neg (by decide), if_neg (by decide), if_pos rfl]; rfl)]
  rfl

theorem decodeElems_entries (l : List FaxHistoryEntry) (h : ∀ e ∈ l, e.wf) :
    decodeElems decodeEntryJson (l.map entryToJson) = .ok l := by
  induction l with
  | nil => rfl
  | cons e rest ih =>
    rw [List.map_cons, decodeElems, decodeEntryJson_roundtrip e (h e (by simp)),
      ih (fun x hx => h x (by simp [hx]))]

theorem decodeElems_files (l : List File) (h : ∀ f ∈ l, f.wf) :
    decodeElems decodeFileJson (l.map fileToJson) = .ok l := by
  induction l with
  | nil => rfl
  | cons f rest ih =>
    rw [List.map_cons, decodeElems, decodeFileJson_roundtrip f (h f (by simp)),
      ih (fun x hx => h x (by simp [hx]))]

theorem decodeSliceField_arr {α : Type} (dec : Json → Except GoError α)
    (vs : List Json) (cur : Option (List α)) (l : List α)
    (h : decodeElems dec vs = .ok l) :
    decodeSliceField dec (.arr vs) cur = .ok (some l) := by
  show (match decodeElems dec vs with
        | .error e => Except.error e
        | .ok l2 => Except.ok (some l2)) = .ok (some l)
  rw [h]

theorem decodeFaxHistoryJson_envelope (s : String) (l : List FaxHistoryEntry)
    (h : ∀ e ∈ l, e.wf) :
    decodeFaxHistoryJson (.obj [("status", .str s),
      ("history", .arr (l.map entryToJson))]) = .ok ⟨s, some l⟩ := by
  rw [decodeFaxHistoryJson]
  rw [decodeObjFields_step _ _ _ _ _ _
    (by rw [historySetField, if_pos rfl]; rfl)]
  rw [decodeObjFields_step _ _ _ _ _ _
    (by rw [historySetField, if_neg (by decide), if_pos rfl,
          decodeSliceField_arr _ _ _ _ (decodeElems_entries l h)]; rfl)]
  rfl

theorem decodeFaxHistoryJson_empty (s : String) :
    decodeFaxHistoryJson (.obj [("status", .str s), ("history", .arr [])]) =
      .ok ⟨s, some []⟩ := by
  have h0 := decodeFaxHistoryJson_envelope s [] (by simp)
  rw [List.map_nil] at h0
  exact h0

theorem decodeFileJson_statusKeyOnly (s : String) :
    decodeFileJson (.obj [("status", .str s)]) = .ok File.zero := by
  rw [decodeFileJson]
  rw [decodeObjFields_step _ _ _ _ _ _
    (by rw [fileSetField, if_neg (by decide), if_neg (by decide), if_neg (by decide),
          if_neg (by decide), if_neg (by decide)])]
  rfl

theorem decodeSliceField_statusKeyOnly (s : String) :
    decodeSliceField decodeFileJson (.arr [.obj [("status", .str s)]]) (some []) =
      .ok (some [File.zero]) := by
  refine decodeSliceField_arr _ _ _ _ ?_
  rw [decodeElems, decodeFileJson_statusKeyOnly]
  rfl

theorem GetBalance_respond_remote (c : Client) (resp : Response) (b : balanceResponse)
    (hcode : ¬resp.statusCode ≥ 400)
    (hdec : decodeBody decodeBalanceJson resp.body = .ok b)
    (hst : b.Status ≠ "success") :
    c.GetBalance (.ok resp) = .error (.remoteStatus b.Status) := by
  rw [Client.GetBalance]
  rw [if_neg hcode, hdec]
  dsimp only
  rw [if_pos hst]

theorem GetBalance_respond_ok (c : Client) (resp : Response) (b : balanceResponse)
    (hcode : ¬resp.statusCode ≥ 400)
    (hdec : decodeBody decodeBalanceJson resp.body = .ok b)
    (hst : b.Status = "success") :
    c.GetBalance (.ok resp) = .ok b.Balance := by
  rw [Client.GetBalance]
  rw [if_neg hcode, hdec]
  dsimp only
  rw [if_neg (by simp [hst])]

theorem GetFaxCost_respond (c : Client) (number : String) (docId : Nat)
    (resp : Response) (fc : faxCostResponse) (hcode : ¬resp.statusCode ≥ 400)
    (hdec : decodeBody decodeFaxCostJson resp.body = .ok fc) :
    c.GetFaxCost number docId (.ok resp) = .ok fc.Cost := by
  rw [Client.GetFaxCost]
  rw [if_neg hcode, hdec]

theorem GetFaxStatus_respond (c : Client) (jobId : Int) (resp : Response)
    (fs : faxStatusResponse) (hcode : ¬resp.statusCode ≥ 400)
    (hdec : decodeBody decodeFaxStatusJson resp.body = .ok fs) :
    c.GetFaxStatus jobId (.ok resp) = .ok fs.Status := by
  rw [Client.GetFaxStatus]
  rw [if_neg hcode, hdec]

theorem GetFaxHistory_respond_remote (c : Client) (resp : Response)
    (fh : faxHistoryResponse) (hcode : ¬resp.statusCode ≥ 400)
    (hdec : decodeBody decodeFaxHistoryJson resp.body = .ok fh)
    (hst : fh.Status ≠ "success") :
    c.GetFaxHistory (.ok resp) = .error (.remoteStatus fh.Status) := by
  rw [Client.GetFaxHistory]
  rw [if_neg hcode, hdec]
  dsimp only
  rw [if_pos hst]

theorem GetFaxHistory_respond_ok (c : Client) (resp : Response)
    (fh : faxHistoryResponse) (hcode : ¬resp.statusCode ≥ 400)
    (hdec : decodeBody decodeFaxHistoryJson resp.body = .ok fh)
    (hst : fh.Status = "success") :
    c.GetFaxHistory (.ok resp) = .ok fh.History := by
  rw [Client.GetFaxHistory]
  rw [if_neg hcode, hdec]
  dsimp only
  rw [if_neg (by simp [hst])]

theorem UploadFile_respond_remote (c : Client) (content : List Nat)
    (resp : Response) (ful : fileUploadResponse) (hcode : ¬resp.statusCode ≥ 400)
    (hdec : decodeBody decodeFileUploadJson resp.body = .ok ful)
    (hst : ful.Status ≠ "success") :
    c.UploadFile (some content) (.ok resp) = .error (.remoteStatus ful.Status) := by
  rw [Client.UploadFile]
  rw [if_neg hcode, hdec]
  dsimp only
  rw [if_pos hst]

theorem UploadFile_respond_ok (c : Client) (content : List Nat)
    (resp : Response) (ful : fileUploadResponse) (hcode : ¬resp.statusCode ≥ 400)
    (hdec : decodeBody decodeFileUploadJson resp.body = .ok ful)
    (hst : ful.Status = "success") :
    c.UploadFile (some content) (.ok resp) = .ok ful.DocumentId := by
  rw [Client.UploadFile]
  rw [if_neg hcode, hdec]
  dsimp only
  rw [if_neg (by simp [hst])]

theorem GetFiles_respond (c : Client) (resp : Response)
    (files : Option (List File)) (hcode : ¬resp.statusCode ≥ 400)
    (hdec : decodeBody (fun j => decodeSliceField decodeFileJson j (some []))
      resp.body = .ok files) :
    c.GetFiles (.ok resp) = .ok files := by
  rw [Client.GetFiles]
  rw [if_neg hcode, hdec]

theorem isPrefixOf_extend (l t s : List Char) (h : l.isPrefixOf t = true) :
    l.isPrefixOf (t ++ s) = true := by
  induction l generalizing t with
  | nil => simp [List.isPrefixOf]
  | cons c r ih =>
    match t with
    | [] => exact absurd h (by simp [List.isPrefixOf])
    | d :: t2 =>
      rw [List.isPrefixOf] at h
      simp only [Bool.and_eq_true] at h
      rw [List.cons_append, List.isPrefixOf]
      simp only [Bool.and_eq_true]
      exact ⟨h.1, ih t2 h.2⟩

theorem containsSub_nil_pat (s : List Char) : containsSub [] s = true := by
  cases s with
  | nil => rfl
  | cons c t => rw [containsSub]; simp [List.isPrefixOf]

theorem containsSub_append_right (pat l s : List Char)
    (h : containsSub pat l = true) : containsSub pat (l ++ s) = true := by
  induction l with
  | nil =>
    rw [containsSub] at h
    rw [List.nil_append]
    have hp : pat = [] := by
      cases pat with
      | nil => rfl
      | cons c t => exact absurd h (by simp [List.isEmpty])
    rw [hp]
    exact containsSub_nil_pat s
  | cons c t ih =>
    rw [containsSub, Bool.or_eq_true] at h
    rw [List.cons_append, containsSub]
    rcases h with h | h
    · rw [← List.cons_append, isPrefixOf_extend _ _ _ h, Bool.true_or]
    · rw [ih h, Bool.or_true]

theorem strContainsSub_suffix (p k : String) : strContainsSub (p ++ k) k = true := by
  rw [strContainsSub, String.data_append]
  refine containsSub_append_of _ _ _ ?_
  have h0 := containsSub_head k.data []
  rwa [List.append_nil] at h0

theorem strContainsSub_extend (t k s : String) (h : strContainsSub t k = true) :
    strContainsSub (t ++ s) k = true := by
  rw [strContainsSub, String.data_append]
  exact containsSub_append_right _ _ _ h

/-- Claim C1: for every operation (SendFax, GetBalance, GetFaxCost,
GetFaxStatus, GetFaxHistory, UploadFile, GetFiles, DeleteFile) and every HTTP
response with status code at least 400, the operation fails with the
`httpStatus` error carrying that code, for every body whatsoever (including an
unparseable one, `b = none`), so the body is never decoded and the error does
not depend on the body content: the result at body `b` equals the result at
any other body `b2`. -/
theorem C1_http_status_ge400_uniform (c : Client) (code : Nat) (h : 400 ≤ code)
    (b b2 : Option Json) (number : String) (fileId docId delId : Nat)
    (jobId : Int) (content : List Nat) :
    c.SendFax number fileId (.ok ⟨code, b⟩) = .error (.httpStatus code) ∧
    c.GetBalance (.ok ⟨code, b⟩) = .error (.httpStatus code) ∧
    c.GetFaxCost number docId (.ok ⟨code, b⟩) = .error (.httpStatus code) ∧
    c.GetFaxStatus jobId (.ok ⟨code, b⟩) = .error (.httpStatus code) ∧
    c.GetFaxHistory (.ok ⟨code, b⟩) = .error (.httpStatus code) ∧
    c.UploadFile (some content) (.ok ⟨code, b⟩) = .error (.httpStatus code) ∧
    c.GetFiles (.ok ⟨code, b⟩) = .error (.httpStatus code) ∧
    c.DeleteFile delId (.ok ⟨code, b⟩) = .error (.httpStatus code) ∧
    c.SendFax number fileId (.ok ⟨code, b⟩) = c.SendFax number fileId (.ok ⟨code, b2⟩) ∧
    c.GetBalance (.ok ⟨code, b⟩) = c.GetBalance (.ok ⟨code, b2⟩) ∧
    c.GetFaxCost number docId (.ok ⟨code, b⟩) = c.GetFaxCost number docId (.ok ⟨code, b2⟩) ∧
    c.GetFaxStatus jobId (.ok ⟨code, b⟩) = c.GetFaxStatus jobId (.ok ⟨code, b2⟩) ∧
    c.GetFaxHistory (.ok ⟨code, b⟩) = c.GetFaxHistory (.ok ⟨code, b2⟩) ∧
    c.UploadFile (some content) (.ok ⟨code, b⟩) = c.UploadFile (some content) (.ok ⟨code, b2⟩) ∧
    c.GetFiles (.ok ⟨code, b⟩) = c.GetFiles (.ok ⟨code, b2⟩) ∧
    c.DeleteFile delId (.ok ⟨code, b⟩) = c.DeleteFile delId (.ok ⟨code, b2⟩) := by
  simp [Client.SendFax, Client.GetBalance, Client.GetFaxCost, Client.GetFaxStatus,
    Client.GetFaxHistory, Client.UploadFile, Client.GetFiles, Client.DeleteFile, h]

/-- Witness for C1 at a concrete input: an HTTP 500 response with a string
body on one side and an unparseable body on the other. -/
theorem C1_http_status_ge400_uniform_witness :
    400 ≤ 500 ∧
    ((NewClient "k").SendFax "123" 1 (.ok ⟨500, some (.str "oops")⟩) =
        .error (.httpStatus 500) ∧
      (NewClient "k").GetBalance (.ok ⟨500, some (.str "oops")⟩) =
        .error (.httpStatus 500) ∧
      (NewClient "k").GetFaxCost "123" 2 (.ok ⟨500, some (.str "oops")⟩) =
        .error (.httpStatus 500) ∧
      (NewClient "k").GetFaxStatus 4 (.ok ⟨500, some (.str "oops")⟩) =
        .error (.httpStatus 500) ∧
      (NewClient "k").GetFaxHistory (.ok ⟨500, some (.str "oops")⟩) =
        .error (.httpStatus 500) ∧
      (NewClient "k").UploadFile (some [0]) (.ok ⟨500, some (.str "oops")⟩) =
        .error (.httpStatus 500) ∧
      (NewClient "k").GetFiles (.ok ⟨500, some (.str "oops")⟩) =
        .error (.httpStatus 500) ∧
      (NewClient "k").DeleteFile 3 (.ok ⟨500, some (.str "oops")⟩) =
        .error (.httpStatus 500) ∧
      (NewClient "k").SendFax "123" 1 (.ok ⟨500, some (.str "oops")⟩) =
        (NewClient "k").SendFax "123" 1 (.ok ⟨500, none⟩) ∧
      (NewClient "k").GetBalance (.ok ⟨500, some (.str "oops")⟩) =
        (NewClient "k").GetBalance (.ok ⟨500, none⟩) ∧
      (NewClient "k").GetFaxCost "123" 2 (.ok ⟨500, some (.str "oops")⟩) =
        (NewClient "k").GetFaxCost "123" 2 (.ok ⟨500, none⟩) ∧
      (NewClient "k").GetFaxStatus 4 (.ok ⟨500, some (.str "oops")⟩) =
        (NewClient "k").GetFaxStatus 4 (.ok ⟨500, none⟩) ∧
      (NewClient "k").GetFaxHistory (.ok ⟨500, some (.str "oops")⟩) =
        (NewClient "k").GetFaxHistory (.ok ⟨500, none⟩) ∧
      (NewClient "k").UploadFile (some [0]) (.ok ⟨500, some (.str "oops")⟩) =
        (NewClient "k").UploadFile (some [0]) (.ok ⟨500, none⟩) ∧
      (NewClient "k").GetFiles (.ok ⟨500, some (.str "oops")⟩) =
        (NewClient "k").GetFiles (.ok ⟨500, none⟩) ∧
      (NewClient "k").DeleteFile 3 (.ok ⟨500, some (.str "oops")⟩) =
        (NewClient "k").DeleteFile 3 (.ok ⟨500, none⟩)) :=
  ⟨by decide,
    C1_http_status_ge400_uniform (NewClient "k") 500 (by decide)
      (some (.str "oops")) none "123" 1 2 3 4 [0]⟩

/-- Claim C2: exactly GetBalance, GetFaxHistory and UploadFile check the
envelope's `status` field, failing with `remoteStatus s` whenever the decoded
status `s` is not the literal `"success"`; GetFaxCost, GetFaxStatus, GetFiles,
SendFax and DeleteFile perform no such check and return their result for
every status string `s` in the body (for GetFiles, a `status` key inside a
file object is simply an unknown key and is ignored; SendFax and DeleteFile
ignore the body altogether). -/
theorem C2_success_check_asymmetry (c : Client) (s : String)
    (hs : s ≠ "success") (q q2 : Rat) (m number : String) (d p : Nat)
    (hd : d < 2 ^ 64) (hp : p < 2 ^ 64) (docId fileId delId : Nat)
    (jobId : Int) (content : List Nat) (b : Option Json) :
    c.GetBalance (.ok ⟨200, some (.obj [("status", .str s), ("balance", .num q),
        ("sunbscription_credit_allowance", .num q2)])⟩) = .error (.remoteStatus s) ∧
    c.GetFaxHistory (.ok ⟨200, some (.obj [("status", .str s),
        ("history", .arr [])])⟩) = .error (.remoteStatus s) ∧
    c.UploadFile (some content) (.ok ⟨200, some (.obj [("status", .str s),
        ("document_id", .num d), ("total_pages", .num p)])⟩) = .error (.remoteStatus s) ∧
    c.GetFaxCost number docId (.ok ⟨200, some (.obj [("status", .str s),
        ("cost", .num q)])⟩) = .ok q ∧
    c.GetFaxStatus jobId (.ok ⟨200, some (.obj [("status", .str s), ("message", .str m),
        ("user_cash_balance", .num q2)])⟩) = .ok s ∧
    c.GetFiles (.ok ⟨200, some (.arr [.obj [("status", .str s)]])⟩) =
      .ok (some [File.zero]) ∧
    c.SendFax number fileId (.ok ⟨200, b⟩) = .ok () ∧
    c.DeleteFile delId (.ok ⟨200, b⟩) = .ok () := by
  refine ⟨?_, ?_, ?_, ?_, ?_, ?_, ?_, ?_⟩
  · exact GetBalance_respond_remote c
      ⟨200, some (.obj [("status", .str s), ("balance", .num q),
        ("sunbscription_credit_allowance", .num q2)])⟩ ⟨s, q, q2⟩
      (show ¬(200 ≥ 400) by decide)
      (by rw [decodeBody]; exact decodeBalanceJson_envelope s q q2) hs
  · exact GetFaxHistory_respond_remote c
      ⟨200, some (.obj [("status", .str s), ("history", .arr [])])⟩ ⟨s, some []⟩
      (show ¬(200 ≥ 400) by decide)
      (by rw [decodeBody]; exact decodeFaxHistoryJson_empty s) hs
  · exact UploadFile_respond_remote c content
      ⟨200, some (.obj [("status", .str s), ("document_id", .num d),
        ("total_pages", .num p)])⟩ ⟨s, d, p⟩
      (show ¬(200 ≥ 400) by decide)
      (by rw [decodeBody]; exact decodeFileUploadJson_envelope s d p hd hp) hs
  · exact GetFaxCost_respond c number docId
      ⟨200, some (.obj [("status", .str s), ("cost", .num q)])⟩ ⟨s, q⟩
      (show ¬(200 ≥ 400) by decide)
      (by rw [decodeBody]; exact decodeFaxCostJson_envelope s q)
  · exact GetFaxStatus_respond c jobId
      ⟨200, some (.obj [("status", .str s), ("message", .str m),
        ("user_cash_balance", .num q2)])⟩ ⟨s, m, q2⟩
      (show ¬(200 ≥ 400) by decide)
      (by rw [decodeBody]; exact decodeFaxStatusJson_envelope s m q2)
  · exact GetFiles_respond c
      ⟨200, some (.arr [.obj [("status", .str s)]])⟩ (some [File.zero])
      (show ¬(200 ≥ 400) by decide)
      (by rw [decodeBody]; exact decodeSliceField_statusKeyOnly s)
  · simp [Client.SendFax]
  · simp [Client.DeleteFile]

/-- Witness for C2 at a concrete input: envelopes with status `"error"`. -/
theorem C2_success_check_asymmetry_witness :
    "error" ≠ "success" ∧ 7 < 2 ^ 64 ∧ 2 < 2 ^ 64 ∧
    ((NewClient "k").GetBalance (.ok ⟨200, some (.obj [("status", .str "error"),
        ("balance", .num (5 / 2)),
        ("sunbscription_credit_allowance", .num 0)])⟩) = .error (.remoteStatus "error") ∧
      (NewClient "k").GetFaxHistory (.ok ⟨200, some (.obj [("status", .str "error"),
        ("history", .arr [])])⟩) = .error (.remoteStatus "error") ∧
      (NewClient "k").UploadFile (some [9]) (.ok ⟨200, some (.obj [("status", .str "error"),
        ("document_id", .num 7), ("total_pages", .num 2)])⟩) =
        .error (.remoteStatus "error") ∧
      (NewClient "k").GetFaxCost "123" 1 (.ok ⟨200, some (.obj [("status", .str "error"),
        ("cost", .num (5 / 2))])⟩) = .ok (5 / 2) ∧
      (NewClient "k").GetFaxStatus 4 (.ok ⟨200, some (.obj [("status", .str "error"),
        ("message", .str "msg"), ("user_cash_balance", .num 0)])⟩) = .ok "error" ∧
      (NewClient "k").GetFiles (.ok ⟨200, some (.arr [.obj [("status", .str "error")]])⟩) =
        .ok (some [File.zero]) ∧
      (NewClient "k").SendFax "123" 2 (.ok ⟨200, none⟩) = .ok () ∧
      (NewClient "k").DeleteFile 3 (.ok ⟨200, none⟩) = .ok ()) :=
  ⟨by decide, by decide, by decide,
    C2_success_check_asymmetry (NewClient "k") "error" (by decide) (5 / 2) 0
      "msg" "123" 7 2 (by decide) (by decide) 1 2 3 4 [9] none⟩

/-- Claim C3, counterexample: the claim quantifies over every API key string,
but for the key `"$action$"` the per-call action substitution also rewrites
the key occurrence inside the base URL, so the resulting URL
(`https://fax.to/api/v2/balance?api_key=/balance` for GetBalance) does not
contain the caller-supplied key verbatim. -/
theorem C3_url_key_placeholder_counterexample :
    (NewClient "$action$").GetBalance_url =
      "https://fax.to/api/v2/balance?api_key=/balance" ∧
    strContainsSub ((NewClient "$action$").GetBalance_url) "$action$" = false :=
  ⟨rfl, rfl⟩

/-- Claim C3 as amended: for every API key string that does not contain the
placeholder text `$action$`, each operation's request URL is obtained by
substituting the key at construction and the action segment per call,
yielding `https://fax.to/api/v2<action>?api_key=<key>` (GetFaxCost appends
`&fax_number=<number>` after the key), and each URL contains the
caller-supplied key verbatim. -/
theorem C3_url_construction (key : String)
    (hk : containsSub "$action$".data key.data = false)
    (number : String) (docId fileId : Nat) (jobId : Int) :
    (NewClient key).SendFax_url = "https://fax.to/api/v2/fax?api_key=" ++ key ∧
    (NewClient key).GetBalance_url = "https://fax.to/api/v2/balance?api_key=" ++ key ∧
    (NewClient key).GetFaxCost_url number docId =
      "https://fax.to/api/v2" ++ ("/fax/" ++ toString docId ++ "/costs") ++ "?api_key=" ++ key
        ++ "&fax_number=" ++ number ∧
    (NewClient key).GetFaxStatus_url jobId =
      "https://fax.to/api/v2" ++ ("/fax/" ++ toString jobId ++ "/status") ++ "?api_key=" ++ key ∧
    (NewClient key).GetFaxHistory_url = "https://fax.to/api/v2/fax-history?api_key=" ++ key ∧
    (NewClient key).UploadFile_url = "https://fax.to/api/v2/files?api_key=" ++ key ∧
    (NewClient key).GetFiles_url = "https://fax.to/api/v2/files?api_key=" ++ key ∧
    (NewClient key).DeleteFile_url fileId =
      "https://fax.to/api/v2" ++ ("/files/" ++ toString fileId) ++ "?api_key=" ++ key ∧
    strContainsSub (NewClient key).SendFax_url key = true ∧
    strContainsSub (NewClient key).GetBalance_url key = true ∧
    strContainsSub ((NewClient key).GetFaxCost_url number docId) key = true ∧
    strContainsSub ((NewClient key).GetFaxStatus_url jobId) key = true ∧
    strContainsSub (NewClient key).GetFaxHistory_url key = true ∧
    strContainsSub (NewClient key).UploadFile_url key = true ∧
    strContainsSub (NewClient key).GetFiles_url key = true ∧
    strContainsSub ((NewClient key).DeleteFile_url fileId) key = true := by
  refine ⟨?_, ?_, ?_, ?_, ?_, ?_, ?_, ?_, ?_, ?_, ?_, ?_, ?_, ?_, ?_, ?_⟩
  · rw [Client.SendFax_url, actionUrl_eq _ _ hk]
    rfl
  · rw [Client.GetBalance_url, actionUrl_eq _ _ hk]
    rfl
  · rw [Client.GetFaxCost_url, actionUrl_eq _ _ hk]
  · rw [Client.GetFaxStatus_url, actionUrl_eq _ _ hk]
  · rw [Client.GetFaxHistory_url, actionUrl_eq _ _ hk]
    rfl
  · rw [Client.UploadFile_url, actionUrl_eq _ _ hk]
    rfl
  · rw [Client.GetFiles_url, actionUrl_eq _ _ hk]
    rfl
  · rw [Client.DeleteFile_url, actionUrl_eq _ _ hk]
  · rw [Client.SendFax_url, actionUrl_eq _ _ hk]
    exact strContainsSub_suffix _ _
  · rw [Client.GetBalance_url, actionUrl_eq _ _ hk]
    exact strContainsSub_suffix _ _
  · rw [Client.GetFaxCost_url, actionUrl_eq _ _ hk]
    exact strContainsSub_extend _ _ _ (strContainsSub_extend _ _ _ (strContainsSub_suffix _ _))
  · rw [Client.GetFaxStatus_url, actionUrl_eq _ _ hk]
    exact strContainsSub_suffix _ _
  · rw [Client.GetFaxHistory_url, actionUrl_eq _ _ hk]
    exact strContainsSub_suffix _ _
  · rw [Client.UploadFile_url, actionUrl_eq _ _ hk]
    exact strContainsSub_suffix _ _
  · rw [Client.GetFiles_url, actionUrl_eq _ _ hk]
    exact strContainsSub_suffix _ _
  · rw [Client.DeleteFile_url, actionUrl_eq _ _ hk]
    exact strContainsSub_suffix _ _

/-- Witness for the amended C3 at a concrete input: the key `"mykey123"`,
which does not contain the `$action$` placeholder. -/
theorem C3_url_construction_witness :
    containsSub "$action$".data "mykey123".data = false ∧
    ((NewClient "mykey123").SendFax_url =
        "https://fax.to/api/v2/fax?api_key=" ++ "mykey123" ∧
      (NewClient "mykey123").GetBalance_url =
        "https://fax.to/api/v2/balance?api_key=" ++ "mykey123" ∧
      (NewClient "mykey123").GetFaxCost_url "555" 9 =
        "https://fax.to/api/v2" ++ ("/fax/" ++ toString (9 : Nat) ++ "/costs") ++ "?api_key="
          ++ "mykey123" ++ "&fax_number=" ++ "555" ∧
      (NewClient "mykey123").GetFaxStatus_url (-2) =
        "https://fax.to/api/v2" ++ ("/fax/" ++ toString (-2 : Int) ++ "/status") ++ "?api_key="
          ++ "mykey123" ∧
      (NewClient "mykey123").GetFaxHistory_url =
        "https://fax.to/api/v2/fax-history?api_key=" ++ "mykey123" ∧
      (NewClient "mykey123").UploadFile_url =
        "https://fax.to/api/v2/files?api_key=" ++ "mykey123" ∧
      (NewClient "mykey123").GetFiles_url =
        "https://fax.to/api/v2/files?api_key=" ++ "mykey123" ∧
      (NewClient "mykey123").DeleteFile_url 8 =
        "https://fax.to/api/v2" ++ ("/files/" ++ toString (8 : Nat)) ++ "?api_key="
          ++ "mykey123" ∧
      strContainsSub (NewClient "mykey123").SendFax_url "mykey123" = true ∧
      strContainsSub (NewClient "mykey123").GetBalance_url "mykey123" = true ∧
      strContainsSub ((NewClient "mykey123").GetFaxCost_url "555" 9) "mykey123" = true ∧
      strContainsSub ((NewClient "mykey123").GetFaxStatus_url (-2)) "mykey123" = true ∧
      strContainsSub (NewClient "mykey123").GetFaxHistory_url "mykey123" = true ∧
      strContainsSub (NewClient "mykey123").UploadFile_url "mykey123" = true ∧
      strContainsSub (NewClient "mykey123").GetFiles_url "mykey123" = true ∧
      strContainsSub ((NewClient "mykey123").DeleteFile_url 8) "mykey123" = true) :=
  ⟨by decide, C3_url_construction "mykey123" (by decide) "555" 9 8 (-2)⟩

/-- Claim C4: GetBalance, given a response decoding to an envelope with
status `"success"`, returns the numeric value of the `balance` field (here
`25 / 2 = 12.5`); given an envelope whose status is `"error"`, it fails with
`remoteStatus "error"` and returns no balance. -/
theorem C4_get_balance_envelope (c : Client) :
    c.GetBalance (.ok ⟨200, some (.obj [("status", .str "success"),
        ("balance", .num (25 / 2)),
        ("sunbscription_credit_allowance", .num 3)])⟩) = .ok (25 / 2) ∧
    c.GetBalance (.ok ⟨200, some (.obj [("status", .str "error")])⟩) =
      .error (.remoteStatus "error") := ⟨rfl, rfl⟩

/-- Claim C5: GetFaxHistory, on a successful decode with envelope status
`"success"`, returns the history entries exactly as sent by the server, in
server order (the decoded list is the encoded list itself, with no
reordering); an empty history array yields the empty sequence, not an
error.  `e.wf` bounds each entry's integer fields by their Go types, which
is exactly the set of values the remote can serialize. -/
theorem C5_get_fax_history_order (c : Client) (l : List FaxHistoryEntry)
    (h : ∀ e ∈ l, e.wf) :
    c.GetFaxHistory (.ok ⟨200, some (.obj [("status", .str "success"),
        ("history", .arr (l.map entryToJson))])⟩) = .ok (some l) ∧
    c.GetFaxHistory (.ok ⟨200, some (.obj [("status", .str "success"),
        ("history", .arr [])])⟩) = .ok (some []) := by
  constructor
  · exact GetFaxHistory_respond_ok c
      ⟨200, some (.obj [("status", .str "success"),
        ("history", .arr (l.map entryToJson))])⟩ ⟨"success", some l⟩
      (show ¬(200 ≥ 400) by decide)
      (by rw [decodeBody]; exact decodeFaxHistoryJson_envelope "success" l h) rfl
  · exact GetFaxHistory_respond_ok c
      ⟨200, some (.obj [("status", .str "success"), ("history", .arr [])])⟩
      ⟨"success", some []⟩ (show ¬(200 ≥ 400) by decide)
      (by rw [decodeBody]; exact decodeFaxHistoryJson_empty "success") rfl

/-- Witness for C5 at a concrete input: one concrete history entry. -/
theorem C5_get_fax_history_order_witness :
    (∀ e ∈ [(⟨1, ⟨⟨"2021-01-01T00:00:00Z"⟩, 0, "UTC"⟩, 2, "doc.pdf", "123",
        "sent"⟩ : FaxHistoryEntry)], e.wf) ∧
    ((NewClient "k").GetFaxHistory (.ok ⟨200, some (.obj [("status", .str "success"),
        ("history", .arr ([(⟨1, ⟨⟨"2021-01-01T00:00:00Z"⟩, 0, "UTC"⟩, 2, "doc.pdf",
          "123", "sent"⟩ : FaxHistoryEntry)].map entryToJson))])⟩) =
        .ok (some [⟨1, ⟨⟨"2021-01-01T00:00:00Z"⟩, 0, "UTC"⟩, 2, "doc.pdf", "123",
          "sent"⟩]) ∧
      (NewClient "k").GetFaxHistory (.ok ⟨200, some (.obj [("status", .str "success"),
        ("history", .arr [])])⟩) = .ok (some [])) :=
  ⟨by decide,
    C5_get_fax_history_order (NewClient "k")
      [⟨1, ⟨⟨"2021-01-01T00:00:00Z"⟩, 0, "UTC"⟩, 2, "doc.pdf", "123", "sent"⟩]
      (by decide)⟩

/-- Claim C6: UploadFile sends the raw bytes of the file as the entire
request body, with no validation of content or size (for a 0-byte file the
body is the empty byte list and the call proceeds identically), and on a
decoded envelope with status `"success"` it returns the `document_id`
field. -/
theorem C6_upload_file_raw_body (c : Client) (content : List Nat) (d p : Nat)
    (hd : d < 2 ^ 64) (hp : p < 2 ^ 64) :
    (c.UploadFile_request content).rawBody = content ∧
    (c.UploadFile_request []).rawBody = [] ∧
    c.UploadFile (some content) (.ok ⟨200, some (.obj [("status", .str "success"),
        ("document_id", .num d), ("total_pages", .num p)])⟩) = .ok d ∧
    c.UploadFile (some []) (.ok ⟨200, some (.obj [("status", .str "success"),
        ("document_id", .num d), ("total_pages", .num p)])⟩) = .ok d := by
  refine ⟨rfl, rfl, ?_, ?_⟩
  · exact UploadFile_respond_ok c content
      ⟨200, some (.obj [("status", .str "success"), ("document_id", .num d),
        ("total_pages", .num p)])⟩ ⟨"success", d, p⟩
      (show ¬(200 ≥ 400) by decide)
      (by rw [decodeBody]; exact decodeFileUploadJson_envelope "success" d p hd hp) rfl
  · exact UploadFile_respond_ok c []
      ⟨200, some (.obj [("status", .str "success"), ("document_id", .num d),
        ("total_pages", .num p)])⟩ ⟨"success", d, p⟩
      (show ¬(200 ≥ 400) by decide)
      (by rw [decodeBody]; exact decodeFileUploadJson_envelope "success" d p hd hp) rfl

/-- Witness for C6 at a concrete input. -/
theorem C6_upload_file_raw_body_witness :
    7 < 2 ^ 64 ∧ 2 < 2 ^ 64 ∧
    (((NewClient "k").UploadFile_request [1, 2, 3]).rawBody = [1, 2, 3] ∧
      ((NewClient "k").UploadFile_request []).rawBody = [] ∧
      (NewClient "k").UploadFile (some [1, 2, 3]) (.ok ⟨200, some (.obj
        [("status", .str "success"), ("document_id", .num 7),
          ("total_pages", .num 2)])⟩) = .ok 7 ∧
      (NewClient "k").UploadFile (some []) (.ok ⟨200, some (.obj
        [("status", .str "success"), ("document_id", .num 7),
          ("total_pages", .num 2)])⟩) = .ok 7) :=
  ⟨by decide, by decide,
    C6_upload_file_raw_body (NewClient "k") [1, 2, 3] 7 2 (by decide) (by decide)⟩

/-- Claim C7: GetFiles, given a body that is a JSON array of N file objects,
returns exactly those N `File` records in the order received, for every N
including N = 0 (the decoded list is the encoded list itself). -/
theorem C7_get_files_length_order (c : Client) (l : List File)
    (h : ∀ f ∈ l, f.wf) :
    c.GetFiles (.ok ⟨200, some (.arr (l.map fileToJson))⟩) = .ok (some l) ∧
    c.GetFiles (.ok ⟨200, some (.arr [])⟩) = .ok (some []) := by
  constructor
  · exact GetFiles_respond c ⟨200, some (.arr (l.map fileToJson))⟩ (some l)
      (show ¬(200 ≥ 400) by decide)
      (by rw [decodeBody]; exact decodeSliceField_arr _ _ _ _ (decodeElems_files l h))
  · exact rfl

/-- Witness for C7 at a concrete input: three file objects, as in the spec's
example, decoded to exactly three records in order. -/
theorem C7_get_files_length_order_witness :
    (∀ f ∈ [(⟨1, "a.pdf", 1, 10, ⟨"2021-01-01T00:00:00Z"⟩⟩ : File),
        ⟨2, "b.pdf", 2, 20, ⟨"2021-01-02T00:00:00Z"⟩⟩,
        ⟨3, "c.pdf", 3, 30, ⟨"2021-01-03T00:00:00Z"⟩⟩], f.wf) ∧
    ((NewClient "k").GetFiles (.ok ⟨200, some (.arr
        ([(⟨1, "a.pdf", 1, 10, ⟨"2021-01-01T00:00:00Z"⟩⟩ : File),
          ⟨2, "b.pdf", 2, 20, ⟨"2021-01-02T00:00:00Z"⟩⟩,
          ⟨3, "c.pdf", 3, 30, ⟨"2021-01-03T00:00:00Z"⟩⟩].map fileToJson))⟩) =
        .ok (some [⟨1, "a.pdf", 1, 10, ⟨"2021-01-01T00:00:00Z"⟩⟩,
          ⟨2, "b.pdf", 2, 20, ⟨"2021-01-02T00:00:00Z"⟩⟩,
          ⟨3, "c.pdf", 3, 30, ⟨"2021-01-03T00:00:00Z"⟩⟩]) ∧
      (NewClient "k").GetFiles (.ok ⟨200, some (.arr [])⟩) = .ok (some [])) :=
  ⟨by decide,
    C7_get_files_length_order (NewClient "k")
      [⟨1, "a.pdf", 1, 10, ⟨"2021-01-01T00:00:00Z"⟩⟩,
        ⟨2, "b.pdf", 2, 20, ⟨"2021-01-02T00:00:00Z"⟩⟩,
        ⟨3, "c.pdf", 3, 30, ⟨"2021-01-03T00:00:00Z"⟩⟩] (by decide)⟩

/-- Claim C8: SendFax and DeleteFile, given any HTTP response with status
code below 400, return successfully with no returned value, for every
response body (the body is ignored and never decoded). -/
theorem C8_send_delete_below_400 (c : Client) (code : Nat) (h : code < 400)
    (b : Option Json) (number : String) (fileId delId : Nat) :
    c.SendFax number fileId (.ok ⟨code, b⟩) = .ok () ∧
    c.DeleteFile delId (.ok ⟨code, b⟩) = .ok () := by
  constructor
  · simp [Client.SendFax, Nat.not_le.mpr h]
  · simp [Client.DeleteFile, Nat.not_le.mpr h]

/-- Witness for C8 at a concrete input: a 204 response with a non-empty
body. -/
theorem C8_send_delete_below_400_witness :
    204 < 400 ∧
    ((NewClient "k").SendFax "123" 1 (.ok ⟨204, some (.bool true)⟩) = .ok () ∧
      (NewClient "k").DeleteFile 2 (.ok ⟨204, some (.bool true)⟩) = .ok ()) :=
  ⟨by decide,
    C8_send_delete_below_400 (NewClient "k") 204 (by decide)
      (some (.bool true)) "123" 1 2⟩

/-- Claim C9: the client record is never mutated: each Go method has a
pointer receiver but assigns to no field of it, so modelling each method as
a state transformer on the receiver, the client after any call — any
arguments, any response outcome, success or any error — has the same
`baseUrl` and the same `httpClient` transport as before, and any sequence of
calls on the same client observes the same configuration. -/
theorem C9_client_unchanged (c : Client) (number : String)
    (fileId docId delId : Nat) (jobId : Int) (content : Option (List Nat))
    (r : Except GoError Response) :
    ((c.SendFax_call number fileId r).2.baseUrl = c.baseUrl ∧
      (c.SendFax_call number fileId r).2.httpClient = c.httpClient) ∧
    ((c.GetBalance_call r).2.baseUrl = c.baseUrl ∧
      (c.GetBalance_call r).2.httpClient = c.httpClient) ∧
    ((c.GetFaxCost_call number docId r).2.baseUrl = c.baseUrl ∧
      (c.GetFaxCost_call number docId r).2.httpClient = c.httpClient) ∧
    ((c.GetFaxStatus_call jobId r).2.baseUrl = c.baseUrl ∧
      (c.GetFaxStatus_call jobId r).2.httpClient = c.httpClient) ∧
    ((c.GetFaxHistory_call r).2.baseUrl = c.baseUrl ∧
      (c.GetFaxHistory_call r).2.httpClient = c.httpClient) ∧
    ((c.UploadFile_call content r).2.baseUrl = c.baseUrl ∧
      (c.UploadFile_call content r).2.httpClient = c.httpClient) ∧
    ((c.GetFiles_call r).2.baseUrl = c.baseUrl ∧
      (c.GetFiles_call r).2.httpClient = c.httpClient) ∧
    ((c.DeleteFile_call delId r).2.baseUrl = c.baseUrl ∧
      (c.DeleteFile_call delId r).2.httpClient = c.httpClient) :=
  ⟨⟨rfl, rfl⟩, ⟨rfl, rfl⟩, ⟨rfl, rfl⟩, ⟨rfl, rfl⟩, ⟨rfl, rfl⟩, ⟨rfl, rfl⟩,
    ⟨rfl, rfl⟩, ⟨rfl, rfl⟩⟩

/-- Claim C10, counterexample: on a body decoding to JSON null, GetFiles
succeeds but returns the nil slice (`none`), not an empty non-null sequence:
Go's `encoding/json` sets a slice to nil when unmarshalling JSON null,
overwriting the `make([]File, 0)` initialization. -/
theorem C10_null_body_counterexample :
    (NewClient "k").GetFiles (.ok ⟨200, some .null⟩) = .ok none ∧
    (NewClient "k").GetFiles (.ok ⟨200, some .null⟩) ≠ .ok (some []) := by
  refine ⟨rfl, ?_⟩
  intro hcontra
  exact Option.noConfusion (Except.ok.inj hcontra)

/-- Claim C10 as amended: GetFiles initializes its result to an empty
sequence before decoding and, on an empty-array body, returns an empty
(non-null) sequence; but if the body decodes to JSON null, the decoder sets
the slice to nil, so the call succeeds and returns the nil (absent)
sequence rather than the empty one. -/
theorem C10_null_body_nil_slice (c : Client) :
    c.GetFiles (.ok ⟨200, some .null⟩) = .ok none ∧
    c.GetFiles (.ok ⟨200, some (.arr [])⟩) = .ok (some []) := ⟨rfl, rfl⟩
